import Mathlib

/-!
Shallow embedding of the AWS machinery module `modules/machinery/aws.py`
(class `AWS(Machinery)`): canonical machine states, the instance-handle
registry `ec2_machines`, the state prober `_status`, the lifecycle
operation `stop`, elastic allocation `_allocate_new_machine`, the capacity
controller `_start_or_create_machines` / `_start_next_machines`, the
volume restorer `_restore`, and the startup sweep `_initialize_check`.

Cloud-side effects (boto3 calls) are environment inputs: each external
call's observable outcome is a parameter, and the actions the module
issues against the cloud/database are recorded in an explicit trace so
that "nothing was mutated" is a provable statement.
-/

namespace AWSMachinery

/-- Canonical state constant `AWS.PENDING`. -/
def PENDING : String := "pending"

/-- Canonical state constant `AWS.STOPPING`. -/
def STOPPING : String := "stopping"

/-- Canonical state constant `AWS.RUNNING`. -/
def RUNNING : String := "running"

/-- Canonical state constant `AWS.POWEROFF`. -/
def POWEROFF : String := "poweroff"

/-- Canonical state constant `AWS.ERROR` (the literal string "machete" in the source). -/
def ERROR : String := "machete"

/-- Tag key constant `AWS.AUTOSCALE_CUCKOO`. -/
def AUTOSCALE_CUCKOO : String := "AUTOSCALE_CUCKOO"

/-- The list of canonical machine states of the module. -/
def canonicalStates : List String := [PENDING, STOPPING, RUNNING, POWEROFF, ERROR]

/-- A cloud instance as the module observes it: its id, the cloud-reported
state name (`none` models any failure to communicate with the cloud, e.g.
a failing `reload()` on a stale handle), and its tag list (a tag is a
Key/Value pair; an instance whose `tags` attribute is `None` in Python is
modelled by the empty list). -/
structure Instance where
  id : String
  cloudState : Option String
  tags : List (String × String)
  deriving Repr, DecidableEq

/-- Lookup in the `ec2_machines` dictionary, modelled as an association
list where insertion prepends, so the first matching key wins. `none`
models the `KeyError` raised by `self.ec2_machines[label]`. -/
def lookupInst : List (String × Instance) → String → Option Instance
  | [], _ => none
  | (k, v) :: rest, label => if k = label then some v else lookupInst rest label

/-- The fixed dictionary `states` of `_status` with its `.get(state, AWS.ERROR)`
default: maps the cloud-reported state name to a canonical state. -/
def cloudStateMap (state : String) : String :=
  if state = "running" then RUNNING
  else if state = "stopped" then POWEROFF
  else if state = "pending" then PENDING
  else if state = "stopping" then STOPPING
  else ERROR

/-- Embedding of `AWS._status`: reload the handle and map its reported
state; every exception (missing label in `ec2_machines`, failing reload)
is caught and yields `ERROR`. -/
def _status (ec2_machines : List (String × Instance)) (label : String) : String :=
  match lookupInst ec2_machines label with
  | none => ERROR
  | some inst =>
    match inst.cloudState with
    | none => ERROR
    | some s => cloudStateMap s

/-- Embedding of `AWS._is_autoscaled`: true iff some tag has key
`AUTOSCALE_CUCKOO`. -/
def _is_autoscaled (inst : Instance) : Bool :=
  inst.tags.any (fun t => t.1 = AUTOSCALE_CUCKOO)

/-- The observable actions the module issues against the cloud and the
database during lifecycle operations. -/
inductive Action where
  | terminate (label : String)
  | forceStop (label : String)
  | waitStatus (label : String) (target : String)
  | restoreCall (label : String)
  | dbDelete (label : String)
  | startInstance (label : String)
  deriving Repr, DecidableEq

/-- The module's mutable state: the `ec2_machines` registry, the database
machine rows (name, label pairs as inserted by `db.add_machine`), and the
two process-wide counters. -/
structure AWSSt where
  ec2_machines : List (String × Instance)
  db : List (String × String)
  dynamic_machines_sequence : Int
  dynamic_machines_count : Int
  deriving Repr, DecidableEq

/-- Embedding of `AWS._delete_machine_form_db`: delete the first database
row whose label matches (`filter_by(label=label).first()` then
`session.delete`); a `SQLAlchemyError` (`dbFail`) is caught, the
transaction rolled back and the rows left unchanged. -/
def _delete_machine_form_db (dbFail : Bool) (db : List (String × String)) (label : String) : List (String × String) :=
  if dbFail then db
  else deleteFirstByLabel db label
where
  deleteFirstByLabel : List (String × String) → String → List (String × String)
    | [], _ => []
    | row :: rest, l => if row.2 = l then rest else row :: deleteFirstByLabel rest l

/-- Update the cloud-reported state of the registry entries with the given
label, modelling the cloud-side effect of a terminate/stop call on the
instance behind the handle. -/
def setCloudState (reg : List (String × Instance)) (label : String) (s : String) : List (String × Instance) :=
  reg.map (fun p => if p.1 = label then (p.1, { p.2 with cloudState := some s }) else p)

/-- Result of a lifecycle operation: the state after the call, the actions
performed before returning or raising, and the raised error if any
(`some msg` models a raised `CuckooMachineError` / uncaught exception). -/
structure StopResult where
  st : AWSSt
  actions : List Action
  err : Option String
  deriving Repr, DecidableEq

/-- Embedding of `AWS.stop`: probe the status; raise if already POWEROFF;
otherwise terminate + delete the database row + decrement the counter for
an autoscaled machine, or force-stop, wait for POWEROFF and restore for a
static one. The registry is never shrunk. Modelled from the spec: the base
class `_wait_status` (not part of this repository) blocks until the probed
state reaches the target, so on the static path the handle's cloud state
is "stopped" afterwards; `_restore` is recorded as an invoked action here
and modelled in full separately. -/
def stop (dbFail : Bool) (st : AWSSt) (label : String) : StopResult :=
  let status := _status st.ec2_machines label
  if status = POWEROFF then
    { st := st, actions := [], err := some ("Trying to stop an already stopped VM: " ++ label) }
  else
    match lookupInst st.ec2_machines label with
    | none => { st := st, actions := [], err := some "KeyError" }
    | some inst =>
      if _is_autoscaled inst then
        { st := { st with
            ec2_machines := setCloudState st.ec2_machines label "shutting-down",
            db := _delete_machine_form_db dbFail st.db label,
            dynamic_machines_count := st.dynamic_machines_count - 1 },
          actions := [Action.terminate label, Action.dbDelete label],
          err := none }
      else
        { st := { st with ec2_machines := setCloudState st.ec2_machines label "stopped" },
          actions := [Action.forceStop label, Action.waitStatus label POWEROFF, Action.restoreCall label],
          err := none }

/-- Generated sequential machine name `f"cuckoo_autoscale_{seq:03d}"` (the
zero padding is irrelevant to the claims and elided). -/
def instanceName (seq : Int) : String := "cuckoo_autoscale_" ++ toString seq

/-- Result of `_allocate_new_machine`: its boolean return value and the
state after the call. -/
structure AllocResult where
  ok : Bool
  st : AWSSt
  deriving Repr, DecidableEq

/-- Embedding of `AWS._allocate_new_machine`. The outcome of the cloud
call `_create_instance` is the environment input `created` (`none` models
the failure path in which the method returns `False`). The source
increments `dynamic_machines_sequence` and `dynamic_machines_count`
before calling `_create_instance` and does not undo the increments when
creation fails; on success it registers the handle and inserts the
database row. -/
def _allocate_new_machine (created : Option Instance) (st : AWSSt) : AllocResult :=
  let seq := st.dynamic_machines_sequence + 1
  let count := st.dynamic_machines_count + 1
  let name := instanceName seq
  match created with
  | none =>
    { ok := false,
      st := { st with dynamic_machines_sequence := seq, dynamic_machines_count := count } }
  | some inst =>
    { ok := true,
      st := { st with
        dynamic_machines_sequence := seq,
        dynamic_machines_count := count,
        ec2_machines := (inst.id, inst) :: st.ec2_machines,
        db := (name, inst.id) :: st.db } }

/-- Embedding of `AWS._start_next_machines`: walk the queue returned by
`db.get_available_machines()`, break once the budget is exhausted, and
start (fire-and-forget `ec2_machines[label].start()`) each machine whose
probed status is POWEROFF or STOPPING. Returns the labels started, in
order. -/
def _start_next_machines (reg : List (String × Instance)) : Int → List String → List String
  | _, [] => []
  | n, label :: rest =>
    if n ≤ 0 then []
    else if _status reg label = POWEROFF ∨ _status reg label = STOPPING then
      label :: _start_next_machines reg (n - 1) rest
    else
      _start_next_machines reg n rest

/-- Result of the autoscaling while-loop: the final state and the trace of
every value `dynamic_machines_count` takes during the loop (one entry per
`_allocate_new_machine` call, recorded right after the increment). -/
structure LoopResult where
  st : AWSSt
  trace : List Int
  deriving Repr, DecidableEq

/-- Embedding of the while-loop of `_start_or_create_machines`:
`while autoscale and available < gap`, break when the counter has reached
`dynamic_machines_limit`, break on the first allocation failure, otherwise
increment the local `available`. The `oracle` supplies each
`_create_instance` outcome in turn. The loop increments `available` on
every non-breaking iteration, so `(gap - avail).toNat` steps always
suffice; `fuel` is that bound and reaching `0` coincides with the loop
condition turning false. -/
def autoscaleLoop (limit : Int) : Nat → List (Option Instance) → Int → Int → AWSSt → LoopResult
  | 0, _, _, _, st => { st := st, trace := [] }
  | fuel + 1, oracle, avail, gap, st =>
    if avail < gap then
      if st.dynamic_machines_count ≥ limit then { st := st, trace := [] }
      else
        let r := _allocate_new_machine (oracle.headD none) st
        if r.ok then
          let rest := autoscaleLoop limit fuel oracle.tail (avail + 1) gap r.st
          { st := rest.st, trace := r.st.dynamic_machines_count :: rest.trace }
        else
          { st := r.st, trace := [r.st.dynamic_machines_count] }
    else { st := st, trace := [] }

/-- Result of one capacity-controller pass: the state after the pass, the
labels started from the queue, and the counter trace of the autoscaling
loop. -/
structure PassResult where
  st : AWSSt
  started : List String
  trace : List Int
  deriving Repr, DecidableEq

/-- Embedding of `AWS._start_or_create_machines`: one capacity-controller
pass. `avail` is `db.count_machines_available()`, `queue` the labels from
`db.get_available_machines()`, `gap` the configured
`running_machines_gap`, `limit` the configured `dynamic_machines_limit`,
and `autoscale` the autoscale flag; `oracle` supplies the cloud outcomes
of the `_create_instance` calls. -/
def _start_or_create_machines (autoscale : Bool) (gap limit avail : Int)
    (queue : List String) (oracle : List (Option Instance)) (st : AWSSt) : PassResult :=
  let started := _start_next_machines st.ec2_machines (min avail gap) queue
  if autoscale then
    let r := autoscaleLoop limit (gap - avail).toNat oracle avail gap st
    { st := r.st, started := started, trace := r.trace }
  else
    { st := st, started := started, trace := [] }

/-- One lifecycle event of the scheduler-facing interface that invokes the
capacity controller: `acquire` and `release` both delegate the machine
bookkeeping to the external base class/database (modelled from the spec:
the base-class `acquire`/`release`, not part of this repository, do not
touch the registry, the counters or the machine rows this module owns) and
then run one `_start_or_create_machines` pass; the database count, queue
and cloud outcomes at that moment are environment inputs carried by the
event. -/
inductive Event where
  | acquire (avail : Int) (queue : List String) (oracle : List (Option Instance))
  | release (avail : Int) (queue : List String) (oracle : List (Option Instance))

/-- Run a sequence of acquire/release events, accumulating the counter
traces of every capacity-controller pass. -/
def runEvents (autoscale : Bool) (gap limit : Int) : AWSSt → List Event → AWSSt × List Int
  | st, [] => (st, [])
  | st, Event.acquire avail queue oracle :: es =>
    let r := _start_or_create_machines autoscale gap limit avail queue oracle st
    let rest := runEvents autoscale gap limit r.st es
    (rest.1, r.trace ++ rest.2)
  | st, Event.release avail queue oracle :: es =>
    let r := _start_or_create_machines autoscale gap limit avail queue oracle st
    let rest := runEvents autoscale gap limit r.st es
    (rest.1, r.trace ++ rest.2)

/-- Environment of one `_restore` call: everything the cloud and the
database report during the call. `probedState` is `_status(label)`;
`volumeIds` the ids of the volumes attached to the instance;
`detachExitState` the old volume's state when the first polling loop exits
(the loop exits on the first reloaded state other than "in-use");
`createExitState` the new volume's state when the post-create polling loop
exits (first state other than "creating"); `attachExitState` the new
volume's state when the post-attach polling loop exits (first state other
than "available"). -/
structure RestoreEnv where
  snapId : String
  probedState : String
  volumeIds : List String
  oldVolumeType : String
  newVolumeId : String
  detachExitState : String
  createExitState : String
  attachExitState : String
  deriving Repr, DecidableEq

/-- The volume operations `_restore` issues against the cloud. -/
inductive VolAct where
  | detachVolume (vid : String)
  | deleteVolume (vid : String)
  | createVolume (snap : String) (vtype : String)
  | attachVolume (vid : String) (device : String)
  deriving Repr, DecidableEq

/-- Result of `_restore`: the volume operations performed in order, and
the raised `CuckooMachineError` if any. -/
structure RestoreResult where
  actions : List VolAct
  err : Option String
  deriving Repr, DecidableEq

/-- Embedding of `AWS._restore`: check the POWEROFF precondition, check
the exactly-one-volume precondition, detach the old volume and poll, fail
unless it reached "available", delete it, create a new volume from the
snapshot and poll, on any state other than "available" delete the new
volume and fail, attach it and poll, and on any final state other than
"in-use" delete the new volume and fail. -/
def _restore (env : RestoreEnv) : RestoreResult :=
  if env.probedState ≠ POWEROFF then
    { actions := [], err := some ("state " ++ env.probedState ++ " is not poweroff") }
  else if env.volumeIds.length ≠ 1 then
    { actions := [], err := some "wrong number of volumes" }
  else
    let oldId := env.volumeIds.headD ""
    if env.detachExitState ≠ "available" then
      { actions := [VolAct.detachVolume oldId],
        err := some ("Old volume turned into state " ++ env.detachExitState) }
    else if env.createExitState ≠ "available" then
      { actions := [VolAct.detachVolume oldId, VolAct.deleteVolume oldId,
                    VolAct.createVolume env.snapId env.oldVolumeType,
                    VolAct.deleteVolume env.newVolumeId],
        err := some ("New volume turned into state " ++ env.createExitState) }
    else if env.attachExitState ≠ "in-use" then
      { actions := [VolAct.detachVolume oldId, VolAct.deleteVolume oldId,
                    VolAct.createVolume env.snapId env.oldVolumeType,
                    VolAct.attachVolume env.newVolumeId "/dev/sda1",
                    VolAct.deleteVolume env.newVolumeId],
        err := some "New volume did not turn in-use" }
    else
      { actions := [VolAct.detachVolume oldId, VolAct.deleteVolume oldId,
                    VolAct.createVolume env.snapId env.oldVolumeType,
                    VolAct.attachVolume env.newVolumeId "/dev/sda1"],
        err := none }

/-- The instance-state filter used by `_initialize_check` and `_list`:
only instances whose cloud-reported state is running, stopped or stopping
are enumerated. -/
def isLive (inst : Instance) : Bool :=
  match inst.cloudState with
  | some s => s = "running" ∨ s = "stopped" ∨ s = "stopping"
  | none => false

/-- The first sweep of `_initialize_check`: every enumerated instance
carrying the autoscale tag is terminated; the cloud-side effect of
`instance.terminate()` moves the instance out of the
running/stopped/stopping filter (modelled from the spec: terminate is a
cloud-provider call that retires the instance, so subsequent enumerations
no longer report it in those states). -/
def terminateOrphans (cloud : List Instance) : List Instance :=
  cloud.map (fun i =>
    if isLive i && _is_autoscaled i then { i with cloudState := some "shutting-down" } else i)

/-- The ids of the autoscaled instances the first sweep terminates. -/
def orphanIds (cloud : List Instance) : List String :=
  (cloud.filter (fun i => isLive i && _is_autoscaled i)).map Instance.id

/-- Embedding of `AWS._list`: the ids of all instances in states
running/stopped/stopping. -/
def _list (cloud : List Instance) : List String :=
  (cloud.filter isLive).map Instance.id

/-- The labels `_initialize_check` registers into `ec2_machines` after the
orphan sweep: the configured machines whose label is among the ids
returned by `_list`. -/
def initRegistryLabels (cloud : List Instance) (machineLabels : List String) : List String :=
  machineLabels.filter (fun l => (_list (terminateOrphans cloud)).contains l)

/-- One iteration of the registration loop of `_initialize_check` for a
machine whose label is among the listed instance ids: register the handle
into `ec2_machines`, then call `stop` if the probed status is not
POWEROFF. -/
def initHandleMachine (dbFail : Bool) (st : AWSSt) (inst : Instance) : AWSSt × List Action :=
  let st1 := { st with ec2_machines := (inst.id, inst) :: st.ec2_machines }
  if _status st1.ec2_machines inst.id ≠ POWEROFF then
    let r := stop dbFail st1 inst.id
    (r.st, r.actions)
  else
    (st1, [])

/-! Helper lemmas. -/

theorem cloudStateMap_mem (s : String) : cloudStateMap s ∈ canonicalStates := by
  unfold cloudStateMap
  split_ifs <;> decide

theorem cloudStateMap_ne_error (s : String) (h : cloudStateMap s ≠ ERROR) :
    s = "running" ∨ s = "stopped" ∨ s = "pending" ∨ s = "stopping" := by
  unfold cloudStateMap at h
  split_ifs at h with h1 h2 h3 h4
  · exact Or.inl h1
  · exact Or.inr (Or.inl h2)
  · exact Or.inr (Or.inr (Or.inl h3))
  · exact Or.inr (Or.inr (Or.inr h4))
  · exact absurd rfl h

/-! Claim theorems. -/

/-- C6: the status probe is total: for every registry and label it returns one
of the canonical states, and it returns something other than ERROR only when
the label resolves to a handle, the cloud reload succeeds, and the reported
state is one of the four recognized cloud states (so a communication error, an
unknown label, or an unrecognized cloud state all yield ERROR). -/
theorem C6_status_total (reg : List (String × Instance)) (label : String) :
    _status reg label ∈ canonicalStates ∧
    (_status reg label ≠ ERROR →
      ∃ inst s, lookupInst reg label = some inst ∧ inst.cloudState = some s ∧
        (s = "running" ∨ s = "stopped" ∨ s = "pending" ∨ s = "stopping")) := by
  have key : ∀ hl : Option Instance, lookupInst reg label = hl →
      (_status reg label ∈ canonicalStates ∧
       (_status reg label ≠ ERROR →
         ∃ inst s, lookupInst reg label = some inst ∧ inst.cloudState = some s ∧
           (s = "running" ∨ s = "stopped" ∨ s = "pending" ∨ s = "stopping"))) := by
    intro hl hle
    cases hl with
    | none =>
      have hst : _status reg label = ERROR := by unfold _status; rw [hle]
      rw [hst]
      exact ⟨by decide, fun h => absurd rfl h⟩
    | some inst =>
      cases hc : inst.cloudState with
      | none =>
        have hst : _status reg label = ERROR := by
          unfold _status
          rw [hle]
          show (match inst.cloudState with
                | none => ERROR
                | some s => cloudStateMap s) = ERROR
          rw [hc]
        rw [hst]
        exact ⟨by decide, fun h => absurd rfl h⟩
      | some s =>
        have hst : _status reg label = cloudStateMap s := by
          unfold _status
          rw [hle]
          show (match inst.cloudState with
                | none => ERROR
                | some s => cloudStateMap s) = cloudStateMap s
          rw [hc]
        rw [hst]
        exact ⟨cloudStateMap_mem s, fun h => ⟨inst, s, hle, hc, cloudStateMap_ne_error s h⟩⟩
  exact key (lookupInst reg label) rfl

/-- Concrete registry used to witness C6: a known handle whose reload succeeds
with a recognized state. -/
def c6Reg : List (String × Instance) :=
  [("i-1", { id := "i-1", cloudState := some "running", tags := [] })]

/-- C6 witness: the probe on a live registered handle is not ERROR, so the
implication of `C6_status_total` fires at a concrete input. -/
theorem C6_status_total_witness :
    ∃ inst s, lookupInst c6Reg "i-1" = some inst ∧ inst.cloudState = some s ∧
      (s = "running" ∨ s = "stopped" ∨ s = "pending" ∨ s = "stopping") :=
  (C6_status_total c6Reg "i-1").2 (by decide)

/-- C5: stopping a machine whose probed canonical state is POWEROFF raises
before mutating anything: the state (registry, database rows, counters, and
through the registry the cloud-side instance states) is returned unchanged,
no cloud or database action is performed, and the error is raised. -/
theorem C5_stop_poweroff_no_mutation (dbFail : Bool) (st : AWSSt) (label : String)
    (h : _status st.ec2_machines label = POWEROFF) :
    stop dbFail st label =
      { st := st, actions := [],
        err := some ("Trying to stop an already stopped VM: " ++ label) } := by
  unfold stop
  simp [h]

/-- Concrete state used to witness C5: one static machine whose cloud state is
"stopped", hence probed POWEROFF. -/
def c5St : AWSSt :=
  { ec2_machines := [("i-1", { id := "i-1", cloudState := some "stopped", tags := [] })],
    db := [("cuckoo1", "i-1")], dynamic_machines_sequence := 0, dynamic_machines_count := 0 }

/-- C5 witness: `C5_stop_poweroff_no_mutation` applied at the concrete state. -/
theorem C5_stop_poweroff_no_mutation_witness :
    stop false c5St "i-1" =
      { st := c5St, actions := [],
        err := some ("Trying to stop an already stopped VM: " ++ "i-1") } :=
  C5_stop_poweroff_no_mutation false c5St "i-1" (by decide)

/-- Concrete state used for the C2 counterexample: fresh controller state with
both counters at 0. -/
def c2St : AWSSt :=
  { ec2_machines := [], db := [], dynamic_machines_sequence := 0, dynamic_machines_count := 0 }

/-- C2 counterexample: when `_create_instance` fails, `_allocate_new_machine`
returns failure but the dynamic-machine counter (and the sequence counter) have
been incremented, refuting the claim that the counters are left exactly as they
were. -/
theorem C2_counterexample :
    (_allocate_new_machine none c2St).ok = false ∧
    (_allocate_new_machine none c2St).st.dynamic_machines_count ≠ c2St.dynamic_machines_count ∧
    (_allocate_new_machine none c2St).st.dynamic_machines_sequence ≠ c2St.dynamic_machines_sequence := by
  decide

/-- C2 (amended): when the cloud instance-creation step fails, the allocation
returns failure with the registry and the database unchanged, but the
name-sequence counter and the dynamic-machine counter have each already been
incremented by 1 and are not rolled back. -/
theorem C2_failed_allocation (st : AWSSt) :
    (_allocate_new_machine none st).ok = false ∧
    (_allocate_new_machine none st).st.ec2_machines = st.ec2_machines ∧
    (_allocate_new_machine none st).st.db = st.db ∧
    (_allocate_new_machine none st).st.dynamic_machines_sequence
      = st.dynamic_machines_sequence + 1 ∧
    (_allocate_new_machine none st).st.dynamic_machines_count
      = st.dynamic_machines_count + 1 := by
  unfold _allocate_new_machine
  exact ⟨rfl, rfl, rfl, rfl, rfl⟩

/-- A static POWEROFF machine used in the C4 scenario. -/
def c4Inst (l : String) : Instance := { id := l, cloudState := some "stopped", tags := [] }

/-- Concrete state for the C4 scenario: three static machines, all powered
off, registered and present in the database. -/
def c4St : AWSSt :=
  { ec2_machines := [("m1", c4Inst "m1"), ("m2", c4Inst "m2"), ("m3", c4Inst "m3")],
    db := [("name1", "m1"), ("name2", "m2"), ("name3", "m3")],
    dynamic_machines_sequence := 0, dynamic_machines_count := 0 }

/-- C4 counterexample: with `running_machines_gap = 2`, `autoscale = false`,
the database reporting 0 available machines and the 3 static POWEROFF machines
queued, the capacity-controller pass starts `min(0, 2) = 0` machines, not 2. -/
theorem C4_counterexample :
    (_start_or_create_machines false 2 0 0 ["m1", "m2", "m3"] [] c4St).started.length ≠ 2 ∧
    (_start_or_create_machines false 2 0 0 ["m1", "m2", "m3"] [] c4St).started = [] := by
  decide

/-- C4 (amended): in the scenario the database must report the 3 queued
POWEROFF machines as available (count 3, consistent with the queue); then with
`running_machines_gap = 2` and `autoscale = false` one capacity-controller pass
starts exactly the first 2 queued machines, leaves the third untouched, and
changes no other state. -/
theorem C4_gap_two_starts_two :
    (_start_or_create_machines false 2 0 3 ["m1", "m2", "m3"] [] c4St).started = ["m1", "m2"] ∧
    "m3" ∉ (_start_or_create_machines false 2 0 3 ["m1", "m2", "m3"] [] c4St).started ∧
    (_start_or_create_machines false 2 0 3 ["m1", "m2", "m3"] [] c4St).st = c4St := by
  decide

/-- C7: the volume restore fails without performing any volume operation when
the probed state is not POWEROFF or the number of attached volumes differs
from 1. -/
theorem C7_restore_preconditions (env : RestoreEnv)
    (h : env.probedState ≠ POWEROFF ∨ env.volumeIds.length ≠ 1) :
    (_restore env).actions = [] ∧ (_restore env).err.isSome := by
  unfold _restore
  rcases h with h | h
  · simp [h]
  · by_cases hp : env.probedState = POWEROFF
    · simp [hp, h]
    · simp [hp]

/-- Concrete environment used to witness C7: the machine is still RUNNING. -/
def c7Env : RestoreEnv :=
  { snapId := "snap-1", probedState := RUNNING, volumeIds := ["vol-1"],
    oldVolumeType := "gp2", newVolumeId := "vol-2", detachExitState := "available",
    createExitState := "available", attachExitState := "in-use" }

/-- C7 witness: `C7_restore_preconditions` applied at the concrete environment. -/
theorem C7_restore_preconditions_witness :
    (_restore c7Env).actions = [] ∧ (_restore c7Env).err.isSome :=
  C7_restore_preconditions c7Env (Or.inl (by decide))

/-- C8: when both preconditions hold and the detach succeeded but the new
volume's polling loop ends in any state other than "available", the restore
deletes the new volume and fails, and no attach is ever performed. -/
theorem C8_new_volume_failure (env : RestoreEnv)
    (h1 : env.probedState = POWEROFF) (h2 : env.volumeIds.length = 1)
    (h3 : env.detachExitState = "available") (h4 : env.createExitState ≠ "available") :
    (_restore env).err.isSome ∧
    VolAct.deleteVolume env.newVolumeId ∈ (_restore env).actions ∧
    (∀ v d, VolAct.attachVolume v d ∉ (_restore env).actions) := by
  unfold _restore
  simp [h1, h2, h3, h4]

/-- Concrete environment used to witness C8: the new volume polls to "error". -/
def c8Env : RestoreEnv :=
  { snapId := "snap-1", probedState := POWEROFF, volumeIds := ["vol-1"],
    oldVolumeType := "gp2", newVolumeId := "vol-2", detachExitState := "available",
    createExitState := "error", attachExitState := "in-use" }

/-- C8 witness: `C8_new_volume_failure` applied at the concrete environment. -/
theorem C8_new_volume_failure_witness :
    (_restore c8Env).err.isSome ∧
    VolAct.deleteVolume c8Env.newVolumeId ∈ (_restore c8Env).actions ∧
    VolAct.attachVolume "vol-2" "/dev/sda1" ∉ (_restore c8Env).actions :=
  ⟨(C8_new_volume_failure c8Env (by decide) (by decide) (by decide) (by decide)).1,
   (C8_new_volume_failure c8Env (by decide) (by decide) (by decide) (by decide)).2.1,
   (C8_new_volume_failure c8Env (by decide) (by decide) (by decide) (by decide)).2.2
     "vol-2" "/dev/sda1"⟩

theorem lookupInst_setCloudState (label s : String) :
    ∀ (reg : List (String × Instance)) (inst : Instance),
      lookupInst reg label = some inst →
      lookupInst (setCloudState reg label s) label
        = some { inst with cloudState := some s } := by
  intro reg
  induction reg with
  | nil => intro inst h; simp [lookupInst] at h
  | cons p rest ih =>
    intro inst h
    obtain ⟨k, v⟩ := p
    by_cases hk : k = label
    · unfold lookupInst at h
      rw [if_pos hk] at h
      injection h with h
      unfold setCloudState
      simp only [List.map_cons]
      unfold lookupInst
      simp only [hk, if_pos]
      rw [h]
    · unfold lookupInst at h
      rw [if_neg hk] at h
      unfold setCloudState
      simp only [List.map_cons]
      unfold lookupInst
      simp only [hk, if_neg, if_false]
      have := ih inst h
      unfold setCloudState at this
      exact this

theorem deleteFirstByLabel_not_mem (label : String) :
    ∀ db : List (String × String), (db.map Prod.snd).Nodup →
      ∀ row ∈ _delete_machine_form_db.deleteFirstByLabel db label, row.2 ≠ label := by
  intro db
  induction db with
  | nil =>
    intro _ row hrow
    simp [_delete_machine_form_db.deleteFirstByLabel] at hrow
  | cons r rest ih =>
    intro hnd row hrow
    have hnd2 : r.2 ∉ rest.map Prod.snd ∧ (rest.map Prod.snd).Nodup := by
      rw [List.map_cons, List.nodup_cons] at hnd
      exact hnd
    unfold _delete_machine_form_db.deleteFirstByLabel at hrow
    by_cases hr : r.2 = label
    · rw [if_pos hr] at hrow
      intro heq
      have : label ∈ rest.map Prod.snd := heq ▸ List.mem_map_of_mem Prod.snd hrow
      rw [← hr] at this
      exact hnd2.1 this
    · rw [if_neg hr] at hrow
      rcases List.mem_cons.mp hrow with h1 | h1
      · rw [h1]; exact hr
      · exact ih hnd2.2 row h1

theorem delete_machine_label_gone (label : String) (db : List (String × String))
    (hnd : (db.map Prod.snd).Nodup) :
    ∀ row ∈ _delete_machine_form_db false db label, row.2 ≠ label := by
  unfold _delete_machine_form_db
  simp only [Bool.false_eq_true, if_false]
  exact deleteFirstByLabel_not_mem label db hnd

/-- The autoscaled machine used for the C3 counterexample. -/
def c3Inst : Instance :=
  { id := "i-dyn", cloudState := some "running", tags := [(AUTOSCALE_CUCKOO, "True")] }

/-- Concrete state for C3: one running autoscaled machine, registered, with its
database row, and a dynamic-machine counter of 1. -/
def c3St : AWSSt :=
  { ec2_machines := [("i-dyn", c3Inst)], db := [("cuckoo_autoscale_1", "i-dyn")],
    dynamic_machines_sequence := 1, dynamic_machines_count := 1 }

/-- C3 counterexample: stopping a machine carrying the autoscale tag completes
(no error) but the registry still contains the label — `stop` never removes the
entry from `ec2_machines` — refuting the claim that the registry no longer
contains the label. -/
theorem C3_counterexample :
    _is_autoscaled c3Inst = true ∧
    (stop false c3St "i-dyn").err = none ∧
    lookupInst (stop false c3St "i-dyn").st.ec2_machines "i-dyn" ≠ none := by
  decide

/-- C3 (amended): for every machine carrying the autoscale tag whose probed
state is not POWEROFF, a completed `stop(label)` with no database error leaves
the machine's record gone from the database (its labels being unique) and the
dynamic-machine counter decreased by exactly 1, but the registry still contains
the label — the handle is kept, now pointing at the terminated instance. -/
theorem C3_elastic_stop (st : AWSSt) (label : String) (inst : Instance)
    (hfind : lookupInst st.ec2_machines label = some inst)
    (hauto : _is_autoscaled inst = true)
    (hstatus : _status st.ec2_machines label ≠ POWEROFF)
    (hnd : (st.db.map Prod.snd).Nodup) :
    (stop false st label).err = none ∧
    (stop false st label).actions = [Action.terminate label, Action.dbDelete label] ∧
    (∀ row ∈ (stop false st label).st.db, row.2 ≠ label) ∧
    (stop false st label).st.dynamic_machines_count = st.dynamic_machines_count - 1 ∧
    lookupInst (stop false st label).st.ec2_machines label
      = some { inst with cloudState := some "shutting-down" } := by
  have hstop : stop false st label =
      { st := { st with
          ec2_machines := setCloudState st.ec2_machines label "shutting-down",
          db := _delete_machine_form_db false st.db label,
          dynamic_machines_count := st.dynamic_machines_count - 1 },
        actions := [Action.terminate label, Action.dbDelete label],
        err := none } := by
    unfold stop
    simp only [hstatus, if_false, ite_false, if_neg]
    rw [hfind]
    simp only [hauto, if_pos, ite_true]
  rw [hstop]
  refine ⟨rfl, rfl, delete_machine_label_gone label st.db hnd, rfl, ?_⟩
  exact lookupInst_setCloudState label "shutting-down" st.ec2_machines inst hfind

/-- C3 witness: the amended theorem applied at the concrete state `c3St`. -/
theorem C3_elastic_stop_witness :
    (stop false c3St "i-dyn").err = none ∧
    (stop false c3St "i-dyn").st.dynamic_machines_count
      = c3St.dynamic_machines_count - 1 ∧
    lookupInst (stop false c3St "i-dyn").st.ec2_machines "i-dyn"
      = some { c3Inst with cloudState := some "shutting-down" } :=
  ⟨(C3_elastic_stop c3St "i-dyn" c3Inst (by decide) (by decide) (by decide) (by decide)).1,
   (C3_elastic_stop c3St "i-dyn" c3Inst (by decide) (by decide) (by decide)
      (by decide)).2.2.2.1,
   (C3_elastic_stop c3St "i-dyn" c3Inst (by decide) (by decide) (by decide)
      (by decide)).2.2.2.2⟩

/-- C10: during `_initialize_check`, a registered static machine (one without
the autoscale tag) whose probed status after registration is not POWEROFF is
put through the full stop path — force-stop, blocking wait for POWEROFF, then
the volume restore — while one already probed POWEROFF is only registered,
with no action performed (in particular it is not restored). -/
theorem C10_initialize_static_sweep (dbFail : Bool) (st : AWSSt) (inst : Instance)
    (hstatic : _is_autoscaled inst = false) :
    (_status ((inst.id, inst) :: st.ec2_machines) inst.id ≠ POWEROFF →
      (initHandleMachine dbFail st inst).2 =
        [Action.forceStop inst.id, Action.waitStatus inst.id POWEROFF,
         Action.restoreCall inst.id]) ∧
    (_status ((inst.id, inst) :: st.ec2_machines) inst.id = POWEROFF →
      initHandleMachine dbFail st inst =
        ({ st with ec2_machines := (inst.id, inst) :: st.ec2_machines }, [])) := by
  constructor
  · intro h
    unfold initHandleMachine
    simp only [if_pos, h, ite_true, not_false_iff]
    unfold stop
    simp only [h, if_neg, ite_false]
    have hfind : lookupInst ((inst.id, inst) :: st.ec2_machines) inst.id = some inst := by
      unfold lookupInst
      rw [if_pos rfl]
    rw [hfind]
    simp only [hstatic, if_neg, ite_false, Bool.false_eq_true]
    rw [if_pos h]
  · intro h
    unfold initHandleMachine
    rw [if_neg (fun hne => hne h)]

/-- A running static machine used in the C10 witness. -/
def c10Run : Instance := { id := "s-1", cloudState := some "running", tags := [] }

/-- A powered-off static machine used in the C10 witness. -/
def c10Off : Instance := { id := "s-2", cloudState := some "stopped", tags := [] }

/-- Empty starting state used in the C10 witness. -/
def c10St : AWSSt :=
  { ec2_machines := [], db := [], dynamic_machines_sequence := 0, dynamic_machines_count := 0 }

/-- C10 witness: `C10_initialize_static_sweep` applied to a concrete running
static machine (full stop path taken) and a concrete powered-off one (left
untouched). -/
theorem C10_initialize_static_sweep_witness :
    (initHandleMachine false c10St c10Run).2 =
      [Action.forceStop c10Run.id, Action.waitStatus c10Run.id POWEROFF,
       Action.restoreCall c10Run.id] ∧
    initHandleMachine false c10St c10Off =
      ({ c10St with ec2_machines := (c10Off.id, c10Off) :: c10St.ec2_machines }, []) :=
  ⟨(C10_initialize_static_sweep false c10St c10Run (by decide)).1 (by decide),
   (C10_initialize_static_sweep false c10St c10Off (by decide)).2 (by decide)⟩

theorem alloc_count_succ (o : Option Instance) (st : AWSSt) :
    (_allocate_new_machine o st).st.dynamic_machines_count
      = st.dynamic_machines_count + 1 := by
  cases o <;> rfl

theorem autoscaleLoop_bounded (limit : Int) :
    ∀ (fuel : Nat) (oracle : List (Option Instance)) (avail gap : Int) (st : AWSSt),
      st.dynamic_machines_count ≤ limit →
      (autoscaleLoop limit fuel oracle avail gap st).st.dynamic_machines_count ≤ limit ∧
      ∀ v ∈ (autoscaleLoop limit fuel oracle avail gap st).trace, v ≤ limit := by
  intro fuel
  induction fuel with
  | zero =>
    intro oracle avail gap st h
    exact ⟨h, by simp [autoscaleLoop]⟩
  | succ n ih =>
    intro oracle avail gap st h
    unfold autoscaleLoop
    by_cases h1 : avail < gap
    · rw [if_pos h1]
      by_cases h2 : st.dynamic_machines_count ≥ limit
      · rw [if_pos h2]
        exact ⟨h, by simp⟩
      · rw [if_neg h2]
        have hlt : st.dynamic_machines_count < limit := lt_of_not_ge h2
        have hc1 : st.dynamic_machines_count + 1 ≤ limit := hlt
        have hcnt := alloc_count_succ (oracle.headD none) st
        by_cases hok : (_allocate_new_machine (oracle.headD none) st).ok = true
        · simp only [hok, ite_true, if_pos]
          have hrec := ih oracle.tail (avail + 1) gap
            (_allocate_new_machine (oracle.headD none) st).st (by rw [hcnt]; exact hc1)
          refine ⟨hrec.1, ?_⟩
          intro v hv
          rcases List.mem_cons.mp hv with hv | hv
          · rw [hv, hcnt]; exact hc1
          · exact hrec.2 v hv
        · simp only [hok, ite_false, if_neg, Bool.not_eq_true] at hok ⊢
          refine ⟨by rw [hcnt]; exact hc1, ?_⟩
          intro v hv
          rcases List.mem_singleton.mp hv with hv
          rw [hv, hcnt]
          exact hc1
    · rw [if_neg h1]
      exact ⟨h, by simp⟩

theorem pass_bounded (autoscale : Bool) (gap limit avail : Int) (queue : List String)
    (oracle : List (Option Instance)) (st : AWSSt)
    (h : st.dynamic_machines_count ≤ limit) :
    (_start_or_create_machines autoscale gap limit avail queue oracle st).st.dynamic_machines_count ≤ limit ∧
    ∀ v ∈ (_start_or_create_machines autoscale gap limit avail queue oracle st).trace,
      v ≤ limit := by
  unfold _start_or_create_machines
  cases autoscale with
  | false => exact ⟨h, by simp⟩
  | true =>
    simp only [ite_true, if_pos]
    exact autoscaleLoop_bounded limit (gap - avail).toNat oracle avail gap st h

/-- C1: over every sequence of acquire/release operations (each of which runs
one capacity-controller pass), starting from any state whose dynamic-machine
counter is at most the configured `dynamic_machines_limit`, the counter stays
at most the limit — both at the end and at every transient value it takes
inside the passes (the trace records the counter right after every increment
performed by `_allocate_new_machine`). -/
theorem C1_counter_never_exceeds_limit (autoscale : Bool) (gap limit : Int)
    (st0 : AWSSt) (events : List Event)
    (h : st0.dynamic_machines_count ≤ limit) :
    (runEvents autoscale gap limit st0 events).1.dynamic_machines_count ≤ limit ∧
    ∀ v ∈ (runEvents autoscale gap limit st0 events).2, v ≤ limit := by
  induction events generalizing st0 with
  | nil => exact ⟨h, by simp [runEvents]⟩
  | cons e es ih =>
    cases e with
    | acquire avail queue oracle =>
      have hp := pass_bounded autoscale gap limit avail queue oracle st0 h
      have hr := ih _ hp.1
      unfold runEvents
      refine ⟨hr.1, ?_⟩
      intro v hv
      rcases List.mem_append.mp hv with hv | hv
      · exact hp.2 v hv
      · exact hr.2 v hv
    | release avail queue oracle =>
      have hp := pass_bounded autoscale gap limit avail queue oracle st0 h
      have hr := ih _ hp.1
      unfold runEvents
      refine ⟨hr.1, ?_⟩
      intro v hv
      rcases List.mem_append.mp hv with hv | hv
      · exact hp.2 v hv
      · exact hr.2 v hv

/-- A freshly created autoscaled instance used in the C1 witness. -/
def c1Inst : Instance :=
  { id := "i-new", cloudState := some "running", tags := [(AUTOSCALE_CUCKOO, "True")] }

/-- C1 witness: an acquire with gap 3, limit 1 and a cloud that would create as
many instances as asked; the counter still ends at most the limit. -/
theorem C1_counter_never_exceeds_limit_witness :
    (runEvents true 3 1 c2St
      [Event.acquire 0 [] [some c1Inst, some c1Inst, some c1Inst]]).1.dynamic_machines_count
      ≤ 1 :=
  (C1_counter_never_exceeds_limit true 3 1 c2St
    [Event.acquire 0 [] [some c1Inst, some c1Inst, some c1Inst]] (by decide)).1

theorem isLive_after_terminate (i : Instance) :
    isLive { i with cloudState := some "shutting-down" } = false := rfl

/-- C9: under unique instance ids, after the startup sweep of
`_initialize_check` every autoscaled instance found among cloud instances in
states running/stopped/stopping has been terminated, and no label registered
into `ec2_machines` afterwards refers to an instance carrying the autoscale
tag. -/
theorem C9_no_autoscaled_survives_init (cloud : List Instance) (machineLabels : List String)
    (hids : (cloud.map Instance.id).Nodup) :
    (∀ i ∈ cloud, isLive i = true → _is_autoscaled i = true → i.id ∈ orphanIds cloud) ∧
    (∀ l ∈ initRegistryLabels cloud machineLabels, ∀ i ∈ cloud, i.id = l →
      _is_autoscaled i = false) := by
  constructor
  · intro i hi hlive hauto
    unfold orphanIds
    exact List.mem_map_of_mem Instance.id
      (List.mem_filter.mpr ⟨hi, by rw [hlive, hauto]; rfl⟩)
  · intro l hl i hi hid
    have hl2 : l ∈ _list (terminateOrphans cloud) := by
      unfold initRegistryLabels at hl
      have hmem := (List.mem_filter.mp hl).2
      simpa using hmem
    unfold _list at hl2
    obtain ⟨j, hjf, hjid⟩ := List.mem_map.mp hl2
    have hjmem : j ∈ terminateOrphans cloud := (List.mem_filter.mp hjf).1
    have hjlive : isLive j = true := (List.mem_filter.mp hjf).2
    unfold terminateOrphans at hjmem
    obtain ⟨j0, hj0, hj0eq⟩ := List.mem_map.mp hjmem
    have hid0 : j0.id = l := by
      by_cases hc : (isLive j0 && _is_autoscaled j0) = true
      · rw [if_pos hc] at hj0eq; rw [← hj0eq] at hjid; exact hjid
      · rw [if_neg hc] at hj0eq; rw [← hj0eq] at hjid; exact hjid
    have hji : j0 = i :=
      List.inj_on_of_nodup_map hids hj0 hi (by rw [hid0, hid])
    subst hji
    cases hb : _is_autoscaled j0 with
    | false => rfl
    | true =>
      exfalso
      cases hlv : isLive j0 with
      | true =>
        have hcond : (isLive j0 && _is_autoscaled j0) = true := by rw [hlv, hb]; rfl
        rw [if_pos hcond] at hj0eq
        rw [← hj0eq] at hjlive
        rw [isLive_after_terminate j0] at hjlive
        exact Bool.false_ne_true hjlive
      | false =>
        have hcond : ¬((isLive j0 && _is_autoscaled j0) = true) := by
          rw [hlv]; exact Bool.false_ne_true
        rw [if_neg hcond] at hj0eq
        rw [← hj0eq] at hjlive
        rw [hlv] at hjlive
        exact Bool.false_ne_true hjlive

/-- The live autoscaled orphan of the C9 witness. -/
def c9Orphan : Instance :=
  { id := "i-orph", cloudState := some "running", tags := [(AUTOSCALE_CUCKOO, "True")] }

/-- The static machine of the C9 witness. -/
def c9Static : Instance := { id := "i-stat", cloudState := some "stopped", tags := [] }

/-- The cloud inventory of the C9 witness. -/
def c9Cloud : List Instance := [c9Orphan, c9Static]

/-- C9 witness: in a concrete inventory with one live autoscaled orphan and one
static machine, the orphan is terminated by the sweep and the registered label
refers to an untagged instance. -/
theorem C9_no_autoscaled_survives_init_witness :
    c9Orphan.id ∈ orphanIds c9Cloud ∧ _is_autoscaled c9Static = false :=
  ⟨(C9_no_autoscaled_survives_init c9Cloud ["i-stat"] (by decide)).1 c9Orphan
      (by decide) (by decide) (by decide),
   (C9_no_autoscaled_survives_init c9Cloud ["i-stat"] (by decide)).2 "i-stat"
      (by decide) c9Static (by decide) (by decide)⟩

end AWSMachinery
